import Mathlib

/-!
Shallow embedding of the GPIO register-addressing module (`src/lib.rs`).

Conventions of the embedding:
* Rust `u32` / `usize` values are modelled as `Nat`; an operation that could
  wrap takes an explicit `% 2^32`.  The only such operations here are the
  left shifts in `PinFunction.to_bits` / `PinFunction.clear_mask`; the shift
  amount is always `(pin % 10) * 3 ≤ 27 < 32`, so the Rust shift never
  overflows (proved below).
* A Rust panic (the `assert!` in `assert_pin_index`) is modelled as
  `Except.error msg`, where `msg` is the panic message the source formats;
  a normal return is `Except.ok`.  Functions of the source that contain no
  assertion are total and always `Except.ok` (or plain `Nat`).
* `nix::errno::Errno` is an external library type; it is modelled abstractly
  as a carrier of the OS error description string that `Errno::desc` returns.
-/

deriving instance DecidableEq for Except

/-- Register families of the GPIO block, one constructor per variant of the
Rust `enum Register`. -/
inductive Register where
  | GPFSEL
  | GPSET
  | GPCLR
  | GPLEV
  | GPEDS
  | GPREN
  | GPFEN
  | GPHEN
  | GPLEN
  | GPAREN
  | GPAFEN
  | GPPUPPDNCNTRL
deriving DecidableEq

/-- Discriminant of each `Register` variant in the Rust source (the base byte
offset of the family); this is what `self as u32` evaluates to. -/
def Register.base : Register → Nat
  | .GPFSEL => 0x00
  | .GPSET => 0x1c
  | .GPCLR => 0x28
  | .GPLEV => 0x34
  | .GPEDS => 0x40
  | .GPREN => 0x4c
  | .GPFEN => 0x58
  | .GPHEN => 0x64
  | .GPLEN => 0x70
  | .GPAREN => 0x7c
  | .GPAFEN => 0x88
  | .GPPUPPDNCNTRL => 0xe4

def REGISTER_SIZE : Nat := 4

def GPIO_PIN_COUNT : Nat := 58

def GPIO_FUNCS_PER_REGISTER : Nat := 10

def GPIO_PUPPUD_PER_REGISTER : Nat := 16

/-- Message formatted by the `assert!` in `assert_pin_index` when it fires. -/
def pin_panic_message (pin : Nat) : String :=
  "Illegal pin value. Pin must be in [0," ++ toString GPIO_PIN_COUNT ++
    ") - Paniced on pin = " ++ toString pin

/-- Embedding of `assert_pin_index`: `Except.error` models the panic. -/
def assert_pin_index (pin : Nat) : Except String Unit :=
  if pin < GPIO_PIN_COUNT then Except.ok () else Except.error (pin_panic_message pin)

/-- Embedding of the `register_offset!` macro: `if $pin > 31 { 4 } else { 0 }`. -/
def register_offset (pin : Nat) : Nat :=
  if pin > 31 then 4 else 0

/-- Embedding of `Register::gpfsel_offset_for`. -/
def Register.gpfsel_offset_for (pin : Nat) : Nat :=
  (pin / GPIO_FUNCS_PER_REGISTER) * REGISTER_SIZE

/-- Embedding of `Register::gp_pullup_pulldown`. -/
def Register.gp_pullup_pulldown (pin : Nat) : Nat :=
  Register.GPPUPPDNCNTRL.base + (pin / GPIO_PUPPUD_PER_REGISTER) * REGISTER_SIZE

/-- Embedding of `Register::gp2reg_offset_for`. -/
def Register.gp2reg_offset_for (offset pin : Nat) : Nat :=
  offset + register_offset pin

/-- Embedding of `Register::to_offset`: first `assert_pin_index(pin)` (a panic
is `Except.error`), then dispatch on the register kind exactly as the source
`match` does. -/
def Register.to_offset (r : Register) (pin : Nat) : Except String Nat :=
  match assert_pin_index pin with
  | Except.error e => Except.error e
  | Except.ok _ =>
    match r with
    | Register.GPFSEL => Except.ok (Register.gpfsel_offset_for pin)
    | Register.GPPUPPDNCNTRL => Except.ok (Register.gp_pullup_pulldown pin)
    | _ => Except.ok (Register.gp2reg_offset_for r.base pin)

/-- Pin function codes, one constructor per variant of the Rust
`enum PinFunction`. -/
inductive PinFunction where
  | Input
  | Output
  | Alt0
  | Alt1
  | Alt2
  | Alt3
  | Alt4
  | Alt5
deriving DecidableEq

/-- Discriminant of each `PinFunction` variant (`*self as u32` in the source);
the alternate-function codes are deliberately non-sequential. -/
def PinFunction.code : PinFunction → Nat
  | .Input => 0b000
  | .Output => 0b001
  | .Alt0 => 0b100
  | .Alt1 => 0b101
  | .Alt2 => 0b110
  | .Alt3 => 0b111
  | .Alt4 => 0b011
  | .Alt5 => 0b010

/-- Shift amount `(pin % 10) * 3` shared by `to_bits` and `clear_mask`. -/
def shift_amount (pin : Nat) : Nat :=
  (pin % 10) * 3

/-- Embedding of `PinFunction::to_bits`: `fval << ((pin % 10) * 3)` on `u32`.
Note the source contains no `assert_pin_index`; the function is total. -/
def PinFunction.to_bits (f : PinFunction) (pin : Nat) : Nat :=
  (f.code <<< shift_amount pin) % 2 ^ 32

/-- Embedding of `PinFunction::clear_mask`: `!(0b111 << ((pin % 10) * 3))` on
`u32`; the `u32` complement is xor with `2^32 - 1`.  The source contains no
`assert_pin_index`; the function is total. -/
def PinFunction.clear_mask (pin : Nat) : Nat :=
  ((0b111 <<< shift_amount pin) % 2 ^ 32) ^^^ (2 ^ 32 - 1)

/-- The `pack` contract of the specification: the pair produced by
`PinFunction::to_bits` and `PinFunction::clear_mask` for one pin.  As in the
rest of the file, a panic would be `Except.error`; since neither source
function contains an assertion, the result is unconditionally `Except.ok`. -/
def pack (f : PinFunction) (pin : Nat) : Except String (Nat × Nat) :=
  Except.ok (f.to_bits pin, PinFunction.clear_mask pin)

/-- Abstract model of `nix::errno::Errno` (external library type): it carries
the OS error description string returned by `Errno::desc`. -/
structure Errno where
  desc : String

/-- Embedding of `struct Error`. -/
structure Error where
  message : String
  errno : Option Errno

/-- Embedding of `impl Display for Error`: the string the `fmt` method
writes. -/
def Error.display (e : Error) : String :=
  match e.errno with
  | none => e.message
  | some er => e.message ++ ": " ++ er.desc

def GPIO_BLOCK_SIZE : Nat := 0x100

/-! Helper lemmas shared by the claim theorems. -/

theorem assert_pin_index_of_lt {p : Nat} (h : p < GPIO_PIN_COUNT) :
    assert_pin_index p = Except.ok () := by
  simp [assert_pin_index, h]

theorem assert_pin_index_of_ge {p : Nat} (h : GPIO_PIN_COUNT ≤ p) :
    assert_pin_index p = Except.error (pin_panic_message p) := by
  simp [assert_pin_index, Nat.not_lt.mpr h]

theorem to_offset_of_lt (r : Register) {p : Nat} (h : p < GPIO_PIN_COUNT) :
    Register.to_offset r p = Except.ok
      (match r with
       | Register.GPFSEL => Register.gpfsel_offset_for p
       | Register.GPPUPPDNCNTRL => Register.gp_pullup_pulldown p
       | _ => Register.gp2reg_offset_for r.base p) := by
  unfold Register.to_offset
  rw [assert_pin_index_of_lt h]
  cases r <;> rfl

theorem to_offset_of_ge (r : Register) {p : Nat} (h : GPIO_PIN_COUNT ≤ p) :
    Register.to_offset r p = Except.error (pin_panic_message p) := by
  unfold Register.to_offset
  rw [assert_pin_index_of_ge h]

theorem shift_amount_le_27 (p : Nat) : shift_amount p ≤ 27 := by
  unfold shift_amount
  omega

theorem shiftLeft_lt_u32 {c s : Nat} (hc : c ≤ 7) (hs : s ≤ 27) :
    c <<< s < 2 ^ 32 := by
  rw [Nat.shiftLeft_eq]
  calc c * 2 ^ s ≤ 7 * 2 ^ 27 :=
        Nat.mul_le_mul hc (Nat.pow_le_pow_right (by norm_num) hs)
    _ < 2 ^ 32 := by norm_num

theorem code_le_7 (f : PinFunction) : f.code ≤ 7 := by
  cases f <;> decide

theorem to_bits_eq (f : PinFunction) (p : Nat) :
    PinFunction.to_bits f p = f.code <<< shift_amount p := by
  unfold PinFunction.to_bits
  exact Nat.mod_eq_of_lt (shiftLeft_lt_u32 (code_le_7 f) (shift_amount_le_27 p))

theorem clear_mask_eq (p : Nat) :
    PinFunction.clear_mask p = (0b111 <<< shift_amount p) ^^^ (2 ^ 32 - 1) := by
  unfold PinFunction.clear_mask
  rw [Nat.mod_eq_of_lt (shiftLeft_lt_u32 (by norm_num) (shift_amount_le_27 p))]

theorem to_bits_mod_10 (f : PinFunction) (p : Nat) :
    PinFunction.to_bits f p = PinFunction.to_bits f (p % 10) := by
  unfold PinFunction.to_bits shift_amount
  have h : p % 10 % 10 = p % 10 := by omega
  rw [h]

theorem clear_mask_mod_10 (p : Nat) :
    PinFunction.clear_mask p = PinFunction.clear_mask (p % 10) := by
  unfold PinFunction.clear_mask shift_amount
  have h : p % 10 % 10 = p % 10 := by omega
  rw [h]

/-! Claim theorems. -/

/-- C1: for every pin p in [0, 58), `Register.GPFSEL.to_offset p` returns
`(p / 10) * 4` bytes from the family's base 0x00; in particular 0x00 for
p in [0,10), 0x04 for p in [10,20), and 0x10 for p = 45. -/
theorem gpfsel_to_offset_spec (p : Nat) (h : p < 58) :
    Register.to_offset Register.GPFSEL p = Except.ok (p / 10 * 4) ∧
    (p < 10 → Register.to_offset Register.GPFSEL p = Except.ok 0x00) ∧
    (10 ≤ p → p < 20 → Register.to_offset Register.GPFSEL p = Except.ok 0x04) ∧
    Register.to_offset Register.GPFSEL 45 = Except.ok 0x10 := by
  revert p
  decide

/-- Witness for C1 at p = 5 (and the particular pins 5, 45). -/
theorem gpfsel_to_offset_spec_witness :
    5 < 58 ∧
    (Register.to_offset Register.GPFSEL 5 = Except.ok (5 / 10 * 4) ∧
     (5 < 10 → Register.to_offset Register.GPFSEL 5 = Except.ok 0x00) ∧
     (10 ≤ 5 → 5 < 20 → Register.to_offset Register.GPFSEL 5 = Except.ok 0x04) ∧
     Register.to_offset Register.GPFSEL 45 = Except.ok 0x10) :=
  ⟨by decide, gpfsel_to_offset_spec 5 (by decide)⟩

/-- C3: for every pin p in [0, 58) and every one-bit-per-pin register kind
(all kinds except GPFSEL and GPPUPPDNCNTRL), `to_offset` returns the kind's
base byte offset plus 4 if p > 31, else plus 0; the bases are GPSET 0x1C,
GPCLR 0x28, GPLEV 0x34, GPEDS 0x40, GPREN 0x4C, GPFEN 0x58, GPHEN 0x64,
GPLEN 0x70, GPAREN 0x7C, GPAFEN 0x88. -/
theorem two_bank_to_offset_spec (r : Register) (p : Nat) (h : p < 58)
    (hf : r ≠ Register.GPFSEL) (hp : r ≠ Register.GPPUPPDNCNTRL) :
    Register.to_offset r p = Except.ok (Register.base r + if 31 < p then 4 else 0) ∧
    Register.base Register.GPSET = 0x1c ∧ Register.base Register.GPCLR = 0x28 ∧
    Register.base Register.GPLEV = 0x34 ∧ Register.base Register.GPEDS = 0x40 ∧
    Register.base Register.GPREN = 0x4c ∧ Register.base Register.GPFEN = 0x58 ∧
    Register.base Register.GPHEN = 0x64 ∧ Register.base Register.GPLEN = 0x70 ∧
    Register.base Register.GPAREN = 0x7c ∧ Register.base Register.GPAFEN = 0x88 := by
  cases r <;>
    first
      | exact absurd rfl hf
      | exact absurd rfl hp
      | (revert p; decide)

/-- Witness for C3 at r = GPSET, p = 45. -/
theorem two_bank_to_offset_spec_witness :
    45 < 58 ∧
    (Register.to_offset Register.GPSET 45 =
       Except.ok (Register.base Register.GPSET + if 31 < 45 then 4 else 0) ∧
     Register.base Register.GPSET = 0x1c ∧ Register.base Register.GPCLR = 0x28 ∧
     Register.base Register.GPLEV = 0x34 ∧ Register.base Register.GPEDS = 0x40 ∧
     Register.base Register.GPREN = 0x4c ∧ Register.base Register.GPFEN = 0x58 ∧
     Register.base Register.GPHEN = 0x64 ∧ Register.base Register.GPLEN = 0x70 ∧
     Register.base Register.GPAREN = 0x7c ∧ Register.base Register.GPAFEN = 0x88) :=
  ⟨by decide,
   two_bank_to_offset_spec Register.GPSET 45 (by decide) (by decide) (by decide)⟩

/-- C4: for every pin p in [0, 58), `to_offset GPPUPPDNCNTRL p` returns
`0xE4 + (p / 16) * 4`; in particular 0xE8 for p = 24. -/
theorem pullupdown_to_offset_spec (p : Nat) (h : p < 58) :
    Register.to_offset Register.GPPUPPDNCNTRL p = Except.ok (0xe4 + p / 16 * 4) ∧
    Register.to_offset Register.GPPUPPDNCNTRL 24 = Except.ok 0xe8 := by
  revert p
  decide

/-- Witness for C4 at p = 24. -/
theorem pullupdown_to_offset_spec_witness :
    24 < 58 ∧
    (Register.to_offset Register.GPPUPPDNCNTRL 24 = Except.ok (0xe4 + 24 / 16 * 4) ∧
     Register.to_offset Register.GPPUPPDNCNTRL 24 = Except.ok 0xe8) :=
  ⟨by decide, pullupdown_to_offset_spec 24 (by decide)⟩

/-- C6: for every register kind and every pin, `to_offset` panics (modelled
as `Except.error`) with the descriptive message of `assert_pin_index` if and
only if pin ≥ 58, and for every pin in [0, 58) it returns normally; the
return type offers no recoverable-error path for an out-of-domain pin. -/
theorem to_offset_fault_iff (r : Register) (p : Nat) :
    (Register.to_offset r p = Except.error (pin_panic_message p) ↔ 58 ≤ p) ∧
    (p < 58 → ∃ v, Register.to_offset r p = Except.ok v) := by
  constructor
  · constructor
    · intro he
      by_contra hc
      push_neg at hc
      rw [to_offset_of_lt r hc] at he
      exact Except.noConfusion he
    · intro hge
      exact to_offset_of_ge r hge
  · intro hlt
    exact ⟨_, to_offset_of_lt r hlt⟩

/-- Witness for C6 at r = GPSET, pins 58 and 5. -/
theorem to_offset_fault_iff_witness :
    Register.to_offset Register.GPSET 58 = Except.error (pin_panic_message 58) ∧
    (∃ v, Register.to_offset Register.GPSET 5 = Except.ok v) :=
  ⟨(to_offset_fault_iff Register.GPSET 58).1.mpr (by decide),
   (to_offset_fault_iff Register.GPSET 5).2 (by decide)⟩

/-- C10: for every register kind and every pin in [0, 58), the offset
returned by `to_offset` satisfies offset + 4 ≤ GPIO_BLOCK_SIZE = 256, so the
addressed 4-byte word lies inside the 256-byte mapped block. -/
theorem to_offset_within_block (r : Register) (p : Nat) (h : p < 58) :
    ∃ o, Register.to_offset r p = Except.ok o ∧ o + 4 ≤ GPIO_BLOCK_SIZE := by
  refine ⟨_, to_offset_of_lt r h, ?_⟩
  cases r <;>
    simp only [Register.gpfsel_offset_for, Register.gp_pullup_pulldown,
      Register.gp2reg_offset_for, register_offset, Register.base,
      GPIO_FUNCS_PER_REGISTER, GPIO_PUPPUD_PER_REGISTER, REGISTER_SIZE,
      GPIO_BLOCK_SIZE] <;>
    first
      | omega
      | (split <;> omega)

/-- Witness for C10 at r = GPPUPPDNCNTRL, p = 57 (the largest offset the
addressing function produces). -/
theorem to_offset_within_block_witness :
    57 < 58 ∧
    ∃ o, Register.to_offset Register.GPPUPPDNCNTRL 57 = Except.ok o ∧
      o + 4 ≤ GPIO_BLOCK_SIZE :=
  ⟨by decide, to_offset_within_block Register.GPPUPPDNCNTRL 57 (by decide)⟩

/-- C2: for every PinFunction f and pin p in [0, 58), `to_bits f p` is the
numeric code of f shifted left by (p % 10) * 3, `clear_mask p` is the u32
complement (xor with 2^32 - 1) of 0b111 shifted by the same amount, and the
numeric codes are exactly Input 0, Output 1, Alt0 4, Alt1 5, Alt2 6, Alt3 7,
Alt4 3, Alt5 2. -/
theorem to_bits_clear_mask_spec (f : PinFunction) (p : Nat) (h : p < 58) :
    PinFunction.to_bits f p = f.code <<< (p % 10 * 3) ∧
    PinFunction.clear_mask p = (2 ^ 32 - 1) ^^^ (0b111 <<< (p % 10 * 3)) ∧
    (PinFunction.code .Input = 0 ∧ PinFunction.code .Output = 1 ∧
     PinFunction.code .Alt0 = 4 ∧ PinFunction.code .Alt1 = 5 ∧
     PinFunction.code .Alt2 = 6 ∧ PinFunction.code .Alt3 = 7 ∧
     PinFunction.code .Alt4 = 3 ∧ PinFunction.code .Alt5 = 2) := by
  refine ⟨to_bits_eq f p, ?_, by decide⟩
  rw [clear_mask_eq]
  exact Nat.xor_comm _ _

/-- Witness for C2 at f = Output, p = 32 (the spec's own example, shift
amount 6). -/
theorem to_bits_clear_mask_spec_witness :
    32 < 58 ∧
    (PinFunction.to_bits PinFunction.Output 32 =
       PinFunction.code PinFunction.Output <<< (32 % 10 * 3) ∧
     PinFunction.clear_mask 32 = (2 ^ 32 - 1) ^^^ (0b111 <<< (32 % 10 * 3)) ∧
     (PinFunction.code .Input = 0 ∧ PinFunction.code .Output = 1 ∧
      PinFunction.code .Alt0 = 4 ∧ PinFunction.code .Alt1 = 5 ∧
      PinFunction.code .Alt2 = 6 ∧ PinFunction.code .Alt3 = 7 ∧
      PinFunction.code .Alt4 = 3 ∧ PinFunction.code .Alt5 = 2)) :=
  ⟨by decide, to_bits_clear_mask_spec PinFunction.Output 32 (by decide)⟩

/-- C5 counterexample: calling pack at the out-of-domain pin 58 does not
fault; it returns normally with concrete bits 1 <<< 24 = 16777216 and the
clear mask for field 8, because neither `PinFunction::to_bits` nor
`PinFunction::clear_mask` calls `assert_pin_index`. -/
theorem pack_58_returns_normally :
    pack PinFunction.Output 58 = Except.ok (16777216, 4177526783) := by
  decide

/-- C5 amended: calling pack (to_bits or clear_mask) with pin = 58 or any
value ≥ 58 does not fault; pack performs no pin-domain check, returns
normally on every pin, and simply reduces the pin modulo 10 — only
`Register::to_offset` has the out-of-domain precondition fault. -/
theorem pack_never_faults (f : PinFunction) (pin : Nat) :
    (pack f pin).isOk = true ∧ pack f pin = pack f (pin % 10) := by
  refine ⟨rfl, ?_⟩
  unfold pack
  rw [to_bits_mod_10 f pin, clear_mask_mod_10 pin]

/-- C7: the Display output of an Error is "<message>: <OS error description>"
when its errno field is Some, and exactly "<message>" when errno is None. -/
theorem error_display_spec (e : Error) :
    (e.errno = none → Error.display e = e.message) ∧
    (∀ er, e.errno = some er → Error.display e = e.message ++ ": " ++ er.desc) := by
  constructor
  · intro h
    unfold Error.display
    rw [h]
  · intro er h
    unfold Error.display
    rw [h]

/-- Witness for C7 on one Error without an OS code and one with an OS code. -/
theorem error_display_spec_witness :
    Error.display ⟨"failed to open /dev/mem", none⟩ = "failed to open /dev/mem" ∧
    Error.display ⟨"failed to map the GPIO", some ⟨"Operation not permitted"⟩⟩ =
      "failed to map the GPIO" ++ ": " ++ "Operation not permitted" :=
  ⟨(error_display_spec ⟨"failed to open /dev/mem", none⟩).1 rfl,
   (error_display_spec ⟨"failed to map the GPIO", some ⟨"Operation not permitted"⟩⟩).2
     ⟨"Operation not permitted"⟩ rfl⟩

/-- C8: for every pin (all u32 values, out-of-domain ones included) the shift
amount (pin % 10) * 3 is at most 27, strictly below the 32-bit word width, so
`to_bits` and `clear_mask` are total and the u32 shift never overflows: the
`% 2^32` of the embedding is the identity on both results. -/
theorem shift_amount_bounded (p : Nat) (f : PinFunction) :
    shift_amount p ≤ 27 ∧ shift_amount p < 32 ∧
    PinFunction.to_bits f p = f.code <<< shift_amount p ∧
    PinFunction.clear_mask p = (0b111 <<< shift_amount p) ^^^ (2 ^ 32 - 1) :=
  ⟨shift_amount_le_27 p,
   Nat.lt_of_le_of_lt (shift_amount_le_27 p) (by norm_num),
   to_bits_eq f p,
   clear_mask_eq p⟩

/-- C9: for every PinFunction f and every pin p, the encoded bits and the
clear mask are disjoint: `to_bits f p &&& clear_mask p = 0`, so clearing the
field with the mask and OR-ing in the bits never touches a bit outside the
pin's own 3-bit field. -/
theorem to_bits_and_clear_mask_disjoint (f : PinFunction) (p : Nat) :
    PinFunction.to_bits f p &&& PinFunction.clear_mask p = 0 := by
  rw [to_bits_mod_10 f p, clear_mask_mod_10 p]
  have hlt : p % 10 < 10 := by omega
  revert hlt
  generalize p % 10 = r
  revert r
  cases f <;> decide
